import Mathlib

/-!
# Session Management: call control glue over a SIP user-agent library

A shallow embedding of `pjproject-master/Session Management/main.cpp`.

The program is glue code over the pjsua2 library.  Its own functions
(`MyCall::holdCall`, `MyCall::muteCall`, `MyAccount::onIncomingCall`, `makeCall`,
`startKeepAlive`, `main`, ...) are translated statement by statement.  Every
library call the program makes is recorded as an `Event` in a log, together with
every line written to `cout` / `cerr`.  The library itself is not part of the
source file; the few library operations whose effect on a session matters are
modelled from the specification and are marked as such.
-/

namespace SessionManagement

/-! ## Data model -/

/-- Audio level passed to `adjustTxLevel` / `adjustRxLevel`; the program only ever
passes the literals `0.0` and `1.0`. -/
abbrev Level := ℚ

/-- Call session states (specification §3); `disconnected` is the state the
program compares against `PJSIP_INV_STATE_DISCONNECTED`. -/
inductive CallState where
  | initiating
  | ringing
  | connecting
  | active
  | onHold
  | disconnecting
  | disconnected
  deriving DecidableEq, Repr

/-- Direction of a call session. -/
inductive Direction where
  | inbound
  | outbound
  deriving DecidableEq, Repr

/-- Error taxonomy of the specification (§7). -/
inductive ErrorKind where
  | invalidArgument
  | invalidState
  | conflict
  | transportFailure
  | negotiationFailure
  deriving DecidableEq, Repr

/-- The library's `Error` exception object. -/
structure Error where
  kind : ErrorKind
  deriving DecidableEq, Repr

/-- Text returned by `err.info()`. -/
def Error.info (e : Error) : String :=
  match e.kind with
  | .invalidArgument => "InvalidArgument"
  | .invalidState => "InvalidState"
  | .conflict => "Conflict"
  | .transportFailure => "TransportFailure"
  | .negotiationFailure => "NegotiationFailure"

/-- The fields of `CallOpParam` that the program sets: `statusCode` and
`opt.audioCount`. -/
structure CallOpParam where
  statusCode : Nat
  audioCount : Nat
  deriving DecidableEq, Repr

/-- Modelled from the spec: the library's default-constructed `CallOpParam`
(declared in pjsua2, not under src/): no status code, one audio stream. -/
def CallOpParam.init : CallOpParam := { statusCode := 0, audioCount := 1 }

/-- Modelled from the spec: the library constant `PJSIP_SC_OK` (declared in the
pjsip headers, not under src/), the SIP status code 200 (OK). -/
def PJSIP_SC_OK : Nat := 200

/-- Library-side state of one call session (specification §3): owning account,
call identifier, direction, state, and the media sub-state. -/
structure CallSession where
  account : Nat
  callId : Option Int
  direction : Direction
  state : CallState
  txLevel : Level
  rxLevel : Level
  audioStreamCount : Nat
  deriving DecidableEq

/-- One observable action of the program: a line written to `cout` or `cerr`, or a
call into the library.  `obj` is the address of the call object concerned. -/
inductive Event where
  | out (line : String)
  | err (line : String)
  | newCall (obj : Nat) (acc : Nat) (callId : Option Int)
  | delete (obj : Nat)
  | makeCall (obj : Nat) (dest : String) (audioCount : Nat)
  | answer (obj : Nat) (statusCode : Nat)
  | reinvite (obj : Nat) (audioCount : Nat)
  | getAudioMedia (obj : Nat) (medIdx : Int)
  | adjustTxLevel (obj : Nat) (level : Level)
  | adjustRxLevel (obj : Nat) (level : Level)
  | setRegistration (acc : Nat) (renew : Bool)
  | sleep (seconds : Nat)
  | lib (name : String)
  deriving DecidableEq

/-- Is this event a re-negotiation request? -/
def Event.isReinvite : Event → Bool
  | .reinvite _ _ => true
  | _ => false

/-- Is this event an answer to an invite? -/
def Event.isAnswer : Event → Bool
  | .answer _ _ => true
  | _ => false

/-- Is this event an outbound call request? -/
def Event.isMakeCall : Event → Bool
  | .makeCall _ _ _ => true
  | _ => false

/-- The call object a hold or mute request is applied to, for the events that are
such requests. -/
def Event.mediaTarget : Event → Option Nat
  | .reinvite obj _ => some obj
  | .getAudioMedia obj _ => some obj
  | .adjustTxLevel obj _ => some obj
  | .adjustRxLevel obj _ => some obj
  | _ => none

/-- Is this event a registration refresh? -/
def Event.isRefresh : Event → Bool
  | .setRegistration _ _ => true
  | _ => false

/-! ## Library operations on a session -/

/-- Modelled from the spec: the library's `Call::reinvite` (pjsua2, not under src/).
A request for zero audio streams is the hold request, valid only from Active; any
other count is the unhold request, valid only from OnHold (§4.2).  In any other
state it raises InvalidState.  `remote` is the remote party's answer to the
re-negotiation: on failure the session stays as it was, on success the stream
count becomes the requested one and the state moves Active → OnHold (hold) or
OnHold → Active (unhold). -/
def Call.reinvite (s : CallSession) (prm : CallOpParam) (remote : Except Error Unit) :
    Except Error CallSession :=
  if prm.audioCount = 0 then
    if s.state = .active then
      match remote with
      | .ok _ => .ok { s with state := .onHold, audioStreamCount := prm.audioCount }
      | .error e => .error e
    else .error ⟨.invalidState⟩
  else
    if s.state = .onHold then
      match remote with
      | .ok _ => .ok { s with state := .active, audioStreamCount := prm.audioCount }
      | .error e => .error e
    else .error ⟨.invalidState⟩

/-- Modelled from the spec: the library's `Call::getAudioMedia` (pjsua2, not under
src/).  Media control is valid only while the session is Active or OnHold (§3);
in any other state the call has no audio media and InvalidState is raised.  The
returned handle designates the media sub-state of the session itself. -/
def Call.getAudioMedia (s : CallSession) (_medIdx : Int) : Except Error Unit :=
  if s.state = .active ∨ s.state = .onHold then .ok () else .error ⟨.invalidState⟩

/-- Modelled from the spec: the library's `AudioMedia::adjustTxLevel` (not under
src/): a purely local operation that sets the transmit level (§4.2). -/
def AudioMedia.adjustTxLevel (s : CallSession) (level : Level) : CallSession :=
  { s with txLevel := level }

/-- Modelled from the spec: the library's `AudioMedia::adjustRxLevel` (not under
src/): a purely local operation that sets the receive level (§4.2). -/
def AudioMedia.adjustRxLevel (s : CallSession) (level : Level) : CallSession :=
  { s with rxLevel := level }

/-! ## `MyCall` member functions -/

/-- What a member function leaves behind: the session afterwards, the events it
produced in order, and what reaches the caller (`ok` for a normal return, `error`
for an exception that propagates). -/
structure Ret where
  session : CallSession
  events : List Event
  result : Except Error Unit

/-- `MyCall::holdCall`. -/
def MyCall.holdCall (this : Nat) (s : CallSession) (remote : Except Error Unit) : Ret :=
  let prm : CallOpParam := { CallOpParam.init with audioCount := 0 }
  match Call.reinvite s prm remote with
  | .ok s1 =>
    ⟨s1, [.reinvite this prm.audioCount, .out "[INFO] Call put on hold."], .ok ()⟩
  | .error err =>
    ⟨s, [.reinvite this prm.audioCount, .err ("[ERROR] Failed to hold call: " ++ err.info)],
      .ok ()⟩

/-- `MyCall::unholdCall`. -/
def MyCall.unholdCall (this : Nat) (s : CallSession) (remote : Except Error Unit) : Ret :=
  let prm : CallOpParam := { CallOpParam.init with audioCount := 1 }
  match Call.reinvite s prm remote with
  | .ok s1 =>
    ⟨s1, [.reinvite this prm.audioCount, .out "[INFO] Call unheld."], .ok ()⟩
  | .error err =>
    ⟨s, [.reinvite this prm.audioCount, .err ("[ERROR] Failed to unhold call: " ++ err.info)],
      .ok ()⟩

/-- `MyCall::muteCall`. -/
def MyCall.muteCall (this : Nat) (s : CallSession) : Ret :=
  match Call.getAudioMedia s (-1) with
  | .ok _ =>
    let s1 := AudioMedia.adjustTxLevel s 0
    let s2 := AudioMedia.adjustRxLevel s1 0
    ⟨s2, [.getAudioMedia this (-1), .adjustTxLevel this 0, .adjustRxLevel this 0,
          .out "[INFO] Call muted."], .ok ()⟩
  | .error err =>
    ⟨s, [.getAudioMedia this (-1), .err ("[ERROR] Failed to mute call: " ++ err.info)], .ok ()⟩

/-- `MyCall::unmuteCall`. -/
def MyCall.unmuteCall (this : Nat) (s : CallSession) : Ret :=
  match Call.getAudioMedia s (-1) with
  | .ok _ =>
    let s1 := AudioMedia.adjustTxLevel s 1
    let s2 := AudioMedia.adjustRxLevel s1 1
    ⟨s2, [.getAudioMedia this (-1), .adjustTxLevel this 1, .adjustRxLevel this 1,
          .out "[INFO] Call unmuted."], .ok ()⟩
  | .error err =>
    ⟨s, [.getAudioMedia this (-1), .err ("[ERROR] Failed to unmute call: " ++ err.info)],
      .ok ()⟩

/-- Modelled from the spec: the library constructor `Call(acc)` (pjsua2, not under
src/): a session object for an outbound call that has not been placed yet.  It is in
Initiating/Outbound (§4.2), unmuted, with no call identifier and no stream. -/
def Call.create (acc : Nat) : CallSession :=
  { account := acc, callId := none, direction := .outbound, state := .initiating,
    txLevel := 1, rxLevel := 1, audioStreamCount := 0 }

/-- Modelled from the spec: the library constructor `Call(acc, callId)` (pjsua2, not
under src/): the session object of an inbound invite, in Ringing/Inbound (§4.2). -/
def Call.createInbound (acc : Nat) (callId : Int) : CallSession :=
  { account := acc, callId := some callId, direction := .inbound, state := .ringing,
    txLevel := 1, rxLevel := 1, audioStreamCount := 0 }

/-- Modelled from the spec: the library's `Call::makeCall` (pjsua2, not under src/).
It fails with InvalidArgument on an empty destination, before any state is touched
(§4.2, §6); otherwise `remote` tells whether the request could be sent.  On success
the session is in Initiating/Outbound with the requested number of audio streams;
on failure the session is left as it was. -/
def Call.makeCall (s : CallSession) (dest : String) (prm : CallOpParam)
    (remote : Except Error Unit) : Except Error CallSession :=
  if dest = "" then .error ⟨.invalidArgument⟩
  else
    match remote with
    | .ok _ =>
      .ok { s with state := .initiating, direction := .outbound,
                   audioStreamCount := prm.audioCount }
    | .error e => .error e

/-- Modelled from the spec: which status codes are accept codes (the 2xx class). -/
def isAcceptCode (statusCode : Nat) : Bool :=
  decide (200 ≤ statusCode) && decide (statusCode < 300)

/-- Modelled from the spec: the library's `Call::answer` (pjsua2, not under src/):
valid only while the session is Ringing/Inbound and with an accept code; on success
the session moves toward Active (§4.2). -/
def Call.answer (s : CallSession) (prm : CallOpParam) (remote : Except Error Unit) :
    Except Error CallSession :=
  if s.state = .ringing ∧ s.direction = .inbound then
    if isAcceptCode prm.statusCode then
      match remote with
      | .ok _ => .ok { s with state := .connecting }
      | .error e => .error e
    else .error ⟨.invalidArgument⟩
  else .error ⟨.invalidState⟩

/-! ## The heap of call objects -/

/-- A call object on the heap: its session, and whether `delete` was applied to it. -/
structure CallObj where
  destroyed : Bool
  session : CallSession

/-- The fields of `AccountConfig` that `registerAccount` sets. -/
structure AccountConfig where
  idUri : String
  registrarUri : String
  timeoutSec : Nat
  authCreds : List (String × String × String × Nat × String)

/-- Program state: the call objects allocated so far (a pointer is an index), the
accounts created, and the log of events. -/
structure World where
  calls : List CallObj
  accounts : List AccountConfig
  log : List Event

/-- The state at program start. -/
def World.empty : World := { calls := [], accounts := [], log := [] }

/-- Append events to the log. -/
def World.emit (w : World) (es : List Event) : World :=
  { w with log := w.log ++ es }

/-- `new Call(...)` / `new MyCall(...)`: the object gets the next free address. -/
def World.alloc (w : World) (s : CallSession) : Nat × World :=
  (w.calls.length,
    { w with calls := w.calls ++ [⟨false, s⟩],
             log := w.log ++ [.newCall w.calls.length s.account s.callId] })

/-- `delete call`. -/
def World.delete (w : World) (p : Nat) : World :=
  match w.calls[p]? with
  | some o => { w with calls := w.calls.set p { o with destroyed := true },
                       log := w.log ++ [.delete p] }
  | none => w

/-- `call->m(...)` for a member function `m` that returns normally: the object at
address `p` is updated and the events are logged.  A call through a pointer that is
not a live object is undefined behaviour in C++; the model leaves the state as is. -/
def World.invoke (w : World) (p : Nat) (m : Nat → CallSession → Ret) : World :=
  match w.calls[p]? with
  | some o =>
    if o.destroyed then w
    else
      { w with calls := w.calls.set p { o with session := (m p o.session).session },
               log := w.log ++ (m p o.session).events }
  | none => w

/-- The field of `OnIncomingCallParam` that the program reads. -/
structure OnIncomingCallParam where
  callId : Int

/-- `MyAccount::onIncomingCall`, on the account at address `this`.  `remote` is the
outcome of sending the answer.  There is no `try` here: an `Error` raised by
`answer` propagates to the caller and the message is not printed. -/
def MyAccount.onIncomingCall (this : Nat) (prm : OnIncomingCallParam)
    (remote : Except Error Unit) (w : World) : World × Except Error Unit :=
  let (call, w1) := w.alloc (Call.createInbound this prm.callId)
  let callPrm : CallOpParam := { CallOpParam.init with statusCode := PJSIP_SC_OK }
  match Call.answer (Call.createInbound this prm.callId) callPrm remote with
  | .ok s1 =>
    ({ w1 with calls := w1.calls.set call ⟨false, s1⟩,
               log := w1.log ++ [.answer call callPrm.statusCode,
                                 .out "[INFO] Incoming call answered."] }, .ok ())
  | .error err =>
    (w1.emit [.answer call callPrm.statusCode], .error err)

/-- `initPJSIP`. -/
def initPJSIP (w : World) : World :=
  w.emit [.lib "libCreate", .lib "libInit", .lib "transportCreate", .lib "libStart",
          .out "[INFO] PJSIP initialized and started."]

/-- `registerAccount`: builds the account configuration (registration timeout 120 s)
and creates the account; returns its address. -/
def registerAccount (idUri registrarUri username password : String) (w : World) :
    Nat × World :=
  let acc_cfg : AccountConfig :=
    { idUri := idUri, registrarUri := registrarUri, timeoutSec := 120,
      authCreds := [("digest", "*", username, 0, password)] }
  (w.accounts.length,
    { w with accounts := w.accounts ++ [acc_cfg], log := w.log ++ [.lib "Account.create"] })

/-- `makeCall`: `acc` is the account pointer (`none` is the null pointer), `remote`
tells whether the library could send the request. -/
def makeCall (acc : Option Nat) (destination : String) (remote : Except Error Unit)
    (w : World) : World :=
  match acc with
  | none => w.emit [.err "[ERROR] Cannot make call: Account is null."]
  | some a =>
    let (call, w1) := w.alloc (Call.create a)
    let prm : CallOpParam := { CallOpParam.init with audioCount := 1 }
    match Call.makeCall (Call.create a) destination prm remote with
    | .ok s1 =>
      { w1 with calls := w1.calls.set call ⟨false, s1⟩,
                log := w1.log ++ [.makeCall call destination prm.audioCount,
                  .out ("[INFO] Outgoing call to " ++ destination ++ " initiated.")] }
    | .error err =>
      (w1.emit [.makeCall call destination prm.audioCount,
                .err ("[ERROR] Failed to make call: " ++ err.info)]).delete call

/-- `muteButtonHandler`; `action` is the character read from `cin`. -/
def muteButtonHandler (call : Nat) (action : Char) (w : World) : World :=
  let w1 := w.emit [.out "Press 'm' to mute or 'u' to unmute the call: "]
  if action = 'm' then w1.invoke call MyCall.muteCall
  else if action = 'u' then w1.invoke call MyCall.unmuteCall
  else w1

/-- `holdButtonHandler`; `action` is the character read from `cin`, `remote` the
remote party's answer should a re-negotiation be sent. -/
def holdButtonHandler (call : Nat) (action : Char) (remote : Except Error Unit)
    (w : World) : World :=
  let w1 := w.emit [.out "Press 'h' to hold or 'r' to unhold the call: "]
  if action = 'h' then w1.invoke call (fun this s => MyCall.holdCall this s remote)
  else if action = 'r' then w1.invoke call (fun this s => MyCall.unholdCall this s remote)
  else w1

/-- What the operator and the remote party supply during one pass of the
interaction loop of `main`. -/
structure Round where
  muteKey : Char
  holdKey : Char
  remote : Except Error Unit

/-- The loop `while (isRunning)` of `main`: one element of the list per pass made
while the flag is still set. -/
def mainLoop (call : Nat) : List Round → World → World
  | [], w => w
  | r :: rs, w =>
    mainLoop call rs
      (holdButtonHandler call r.holdKey r.remote (muteButtonHandler call r.muteKey w))

/-- `main`.  The keep-alive thread that `startKeepAlive(acc)` detaches runs on its
own and is modelled by `KeepAlive` below; here the call is only logged.  `dial`
tells whether the library could send the outbound call. -/
def main (dial : Except Error Unit) (rounds : List Round) : World :=
  let w0 := initPJSIP (World.empty.emit [.lib "signal"])
  let (acc, w1) :=
    registerAccount "sip:5613@demo.dial-afrika.com" "sip:demo.dial-afrika.com" "5613"
      "Temp@123" w0
  let w2 := w1.emit [.lib "startKeepAlive", .sleep 10]
  let (call, w3) := w2.alloc (Call.create acc)
  let w4 := makeCall (some acc) "sip:5614@demo.dial-afrika.com" dial w3
  let w5 := mainLoop call rounds w4
  w5.emit [.lib "libDestroy"]

/-! ## The keep-alive thread -/

/-- Where the keep-alive thread stands: about to test `isRunning`, about to sleep,
about to run the `try` block, or past the loop. -/
inductive Pc where
  | loopHead
  | sleeping
  | refreshing
  | finished
  deriving DecidableEq, Repr

/-- The global flag `isRunning`, the account pointer captured by the thread, its
position, and the events so far. -/
structure KeepAlive where
  isRunning : Bool
  acc : Option Nat
  pc : Pc
  log : List Event

/-- Seconds slept by the keep-alive loop before each refresh. -/
def keepAliveSleepSeconds : Nat := 5

/-- `startKeepAlive`: returns at once on a null account, otherwise detaches the
thread, which starts at the head of its loop.  `isRunning` is the value of the
global flag at that moment. -/
def startKeepAlive (isRunning : Bool) (acc : Option Nat) : KeepAlive :=
  match acc with
  | none => { isRunning := isRunning, acc := none, pc := .finished, log := [] }
  | some a => { isRunning := isRunning, acc := some a, pc := .loopHead, log := [] }

/-- `signalHandler`. -/
def signalHandler (_signum : Int) (k : KeepAlive) : KeepAlive :=
  { k with isRunning := false,
           log := k.log ++ [.out "[INFO] Signal received. Shutting down..."] }

/-- One statement of the keep-alive thread; `reg` is the outcome of
`setRegistration` if this statement calls it. -/
def keepAliveStep (reg : Except Error Unit) (k : KeepAlive) : KeepAlive :=
  match k.pc with
  | .loopHead => if k.isRunning then { k with pc := .sleeping } else { k with pc := .finished }
  | .sleeping => { k with pc := .refreshing, log := k.log ++ [.sleep keepAliveSleepSeconds] }
  | .refreshing =>
    match k.acc with
    | none =>
      { k with pc := .loopHead,
               log := k.log ++ [.out "[INFO] Account re-registered to keep it alive."] }
    | some a =>
      match reg with
      | .ok _ =>
        { k with pc := .loopHead,
                 log := k.log ++ [.setRegistration a true,
                                  .out "[INFO] Account re-registered to keep it alive."] }
      | .error err =>
        { k with pc := .loopHead,
                 log := k.log ++ [.setRegistration a true,
                   .err ("[ERROR] Keep-alive registration failed: " ++ err.info)] }
  | .finished => k

/-- Who moves next: the signal is delivered, or the thread runs one statement. -/
inductive Move where
  | signal (signum : Int)
  | thread (reg : Except Error Unit)

/-- One move of the interleaving. -/
def step (k : KeepAlive) : Move → KeepAlive
  | .signal signum => signalHandler signum k
  | .thread reg => keepAliveStep reg k

/-- A schedule of moves, run from left to right. -/
def run (k : KeepAlive) (ms : List Move) : KeepAlive :=
  ms.foldl step k

/-- The times, on the clock that only `sleep` advances, at which the refreshes of a
log are issued; `t` is the time at the start of the log. -/
def refreshTimes : Nat → List Event → List Nat
  | _, [] => []
  | t, .sleep n :: es => refreshTimes (t + n) es
  | t, .setRegistration _ _ :: es => t :: refreshTimes t es
  | t, _ :: es => refreshTimes t es

/-- Number of refreshes issued in a log. -/
def refreshCount (log : List Event) : Nat :=
  (log.filter Event.isRefresh).length

/-- The refresh interval as the specification words it:
max(1, ttlSeconds − safetyMarginSeconds). -/
def specRefreshInterval (ttlSeconds safetyMarginSeconds : Nat) : Nat :=
  max 1 (ttlSeconds - safetyMarginSeconds)

/-- Total number of seconds slept in a log. -/
def sleepTotal : List Event → Nat
  | [] => 0
  | .sleep n :: es => n + sleepTotal es
  | _ :: es => sleepTotal es

/-- Refreshes that a thread at this position still issues without testing the flag
again: one if it is past the loop head, none otherwise. -/
def pendingRefresh (k : KeepAlive) : Nat :=
  match k.pc, k.acc with
  | .sleeping, some _ => 1
  | .refreshing, some _ => 1
  | _, _ => 0

/-- A keep-alive state about to run its `try` block, used to instantiate the
theorems. -/
def sampleRefreshing : KeepAlive :=
  { isRunning := true, acc := some 0, pc := .refreshing, log := [.sleep 5] }

/-- What holds of every state the keep-alive thread can reach: the refreshes so far
were issued at 5, 10, 15, ... seconds of sleep, and the sleep total is 5 s ahead of
the last refresh exactly when the thread has slept and not yet refreshed. -/
def KeepAliveInv (k : KeepAlive) : Prop :=
  refreshTimes 0 k.log
      = (List.range (refreshCount k.log)).map (fun i => keepAliveSleepSeconds * (i + 1)) ∧
  (k.acc = none → k.pc = .finished) ∧
  sleepTotal k.log
      = keepAliveSleepSeconds * refreshCount k.log
        + (if k.pc = .refreshing then keepAliveSleepSeconds else 0)

/-- A stretch of log that places no outbound call and whose hold and mute requests
all go to the object at address `call`. -/
def OnlyControls (call : Nat) (ext : List Event) : Prop :=
  ext.filter Event.isMakeCall = [] ∧
  (ext.filterMap Event.mediaTarget).all (fun obj => decide (obj = call)) = true

/-- A sample session in state Active, used to instantiate the theorems. -/
def sampleActive : CallSession :=
  { account := 0, callId := some 7, direction := .outbound, state := .active,
    txLevel := 1, rxLevel := 1, audioStreamCount := 1 }

/-! ## Theorems -/

theorem holdCall_of_ok (this : Nat) (s s1 : CallSession) (remote : Except Error Unit)
    (h : Call.reinvite s { CallOpParam.init with audioCount := 0 } remote = .ok s1) :
    MyCall.holdCall this s remote
      = ⟨s1, [.reinvite this 0, .out "[INFO] Call put on hold."], .ok ()⟩ := by
  simp only [MyCall.holdCall, h]

theorem holdCall_of_error (this : Nat) (s : CallSession) (remote : Except Error Unit) (e : Error)
    (h : Call.reinvite s { CallOpParam.init with audioCount := 0 } remote = .error e) :
    MyCall.holdCall this s remote
      = ⟨s, [.reinvite this 0, .err ("[ERROR] Failed to hold call: " ++ e.info)], .ok ()⟩ := by
  simp only [MyCall.holdCall, h]

theorem unholdCall_of_ok (this : Nat) (s s1 : CallSession) (remote : Except Error Unit)
    (h : Call.reinvite s { CallOpParam.init with audioCount := 1 } remote = .ok s1) :
    MyCall.unholdCall this s remote
      = ⟨s1, [.reinvite this 1, .out "[INFO] Call unheld."], .ok ()⟩ := by
  simp only [MyCall.unholdCall, h]

theorem unholdCall_of_error (this : Nat) (s : CallSession) (remote : Except Error Unit)
    (e : Error)
    (h : Call.reinvite s { CallOpParam.init with audioCount := 1 } remote = .error e) :
    MyCall.unholdCall this s remote
      = ⟨s, [.reinvite this 1, .err ("[ERROR] Failed to unhold call: " ++ e.info)], .ok ()⟩ := by
  simp only [MyCall.unholdCall, h]

theorem holdCall_reinvites (this : Nat) (s : CallSession) (remote : Except Error Unit) :
    (MyCall.holdCall this s remote).events.filter Event.isReinvite = [.reinvite this 0] := by
  cases h : Call.reinvite s { CallOpParam.init with audioCount := 0 } remote with
  | ok s1 => rw [holdCall_of_ok this s s1 remote h]; rfl
  | error e => rw [holdCall_of_error this s remote e h]; rfl

theorem unholdCall_reinvites (this : Nat) (s : CallSession) (remote : Except Error Unit) :
    (MyCall.unholdCall this s remote).events.filter Event.isReinvite = [.reinvite this 1] := by
  cases h : Call.reinvite s { CallOpParam.init with audioCount := 1 } remote with
  | ok s1 => rw [unholdCall_of_ok this s s1 remote h]; rfl
  | error e => rw [unholdCall_of_error this s remote e h]; rfl

/-- C1: on an Active session, holdCall issues a re-negotiation asking for 0 audio
streams, unholdCall issues one asking for 1, and when both re-negotiations succeed
the session is Active again with audioStreamCount = 1. -/
theorem hold_then_unhold_restores (this : Nat) (s : CallSession) (r1 r2 : Except Error Unit)
    (hs : s.state = .active) :
    (MyCall.holdCall this s r1).events.filter Event.isReinvite = [.reinvite this 0] ∧
    (MyCall.unholdCall this (MyCall.holdCall this s r1).session r2).events.filter
        Event.isReinvite = [.reinvite this 1] ∧
    (MyCall.holdCall this s (.ok ())).session
      = { s with state := .onHold, audioStreamCount := 0 } ∧
    (MyCall.unholdCall this (MyCall.holdCall this s (.ok ())).session (.ok ())).session
      = { s with state := .active, audioStreamCount := 1 } := by
  refine ⟨holdCall_reinvites this s r1, unholdCall_reinvites this _ r2, ?_, ?_⟩
  · simp [MyCall.holdCall, Call.reinvite, hs, CallOpParam.init]
  · simp [MyCall.holdCall, MyCall.unholdCall, Call.reinvite, hs, CallOpParam.init]

/-- Instance of C1 at the sample Active session. -/
theorem hold_then_unhold_restores_witness :
    sampleActive.state = .active ∧
    (MyCall.unholdCall 3 (MyCall.holdCall 3 sampleActive (.ok ())).session (.ok ())).session
      = { sampleActive with state := .active, audioStreamCount := 1 } :=
  ⟨rfl, (hold_then_unhold_restores 3 sampleActive (.ok ()) (.ok ()) rfl).2.2.2⟩

theorem muteCall_of_media (this : Nat) (s : CallSession)
    (h : Call.getAudioMedia s (-1) = .ok ()) :
    MyCall.muteCall this s
      = ⟨{ s with txLevel := 0, rxLevel := 0 },
          [.getAudioMedia this (-1), .adjustTxLevel this 0, .adjustRxLevel this 0,
           .out "[INFO] Call muted."], .ok ()⟩ := by
  simp only [MyCall.muteCall, h, AudioMedia.adjustTxLevel, AudioMedia.adjustRxLevel]

theorem muteCall_no_reinvite (this : Nat) (s : CallSession) :
    (MyCall.muteCall this s).events.filter Event.isReinvite = [] := by
  cases h : Call.getAudioMedia s (-1) <;> simp only [MyCall.muteCall, h] <;> rfl

theorem unmuteCall_no_reinvite (this : Nat) (s : CallSession) :
    (MyCall.unmuteCall this s).events.filter Event.isReinvite = [] := by
  cases h : Call.getAudioMedia s (-1) <;> simp only [MyCall.unmuteCall, h] <;> rfl

theorem getAudioMedia_after_mute (s : CallSession) (h : Call.getAudioMedia s (-1) = .ok ()) :
    Call.getAudioMedia { s with txLevel := 0, rxLevel := 0 } (-1) = .ok () := by
  simpa [Call.getAudioMedia] using h

/-- C2: for a session with an audio media, muteCall leaves txLevel at 0, a second
muteCall leaves the session exactly as the first did, and neither muteCall nor
unmuteCall issues a re-negotiation. -/
theorem muteCall_idempotent_local (this : Nat) (s : CallSession)
    (h : Call.getAudioMedia s (-1) = .ok ()) :
    (MyCall.muteCall this s).session.txLevel = 0 ∧
    (MyCall.muteCall this (MyCall.muteCall this s).session).session.txLevel = 0 ∧
    (MyCall.muteCall this (MyCall.muteCall this s).session).session
      = (MyCall.muteCall this s).session ∧
    ((MyCall.muteCall this s).events
      ++ (MyCall.muteCall this (MyCall.muteCall this s).session).events).filter
        Event.isReinvite = [] ∧
    (∀ t : CallSession, (MyCall.unmuteCall this t).events.filter Event.isReinvite = []) := by
  have h1 := muteCall_of_media this s h
  have h2 := muteCall_of_media this _ (getAudioMedia_after_mute s h)
  refine ⟨?_, ?_, ?_, ?_, fun t => unmuteCall_no_reinvite this t⟩
  · rw [h1]
  · rw [h1, h2]
  · rw [h1, h2]
  · rw [List.filter_append, muteCall_no_reinvite, muteCall_no_reinvite]; rfl

/-- Instance of C2 at the sample Active session. -/
theorem muteCall_idempotent_local_witness :
    Call.getAudioMedia sampleActive (-1) = .ok () ∧
    (MyCall.muteCall 3 (MyCall.muteCall 3 sampleActive).session).session.txLevel = 0 :=
  ⟨rfl, (muteCall_idempotent_local 3 sampleActive rfl).2.1⟩

theorem reinvite_invalid_state (s : CallSession) (prm : CallOpParam)
    (remote : Except Error Unit) (h1 : s.state ≠ .active) (h2 : s.state ≠ .onHold) :
    Call.reinvite s prm remote = .error ⟨.invalidState⟩ := by
  unfold Call.reinvite
  split <;> simp [h1, h2]

theorem getAudioMedia_invalid_state (s : CallSession) (medIdx : Int)
    (h1 : s.state ≠ .active) (h2 : s.state ≠ .onHold) :
    Call.getAudioMedia s medIdx = .error ⟨.invalidState⟩ := by
  simp [Call.getAudioMedia, h1, h2]

/-- C4 (as stated, refuted): on a session object on which no call was ever placed
(state Initiating), holdCall and muteCall do not fail with InvalidState: each issues
its library request and returns normally to its caller. -/
theorem media_request_without_call_returns_normally :
    (Call.create 0).state ≠ .active ∧ (Call.create 0).state ≠ .onHold ∧
    (MyCall.holdCall 5 (Call.create 0) (.ok ())).result ≠ .error ⟨.invalidState⟩ ∧
    (MyCall.holdCall 5 (Call.create 0) (.ok ())).result = .ok () ∧
    Event.reinvite 5 0 ∈ (MyCall.holdCall 5 (Call.create 0) (.ok ())).events ∧
    (MyCall.muteCall 5 (Call.create 0)).result = .ok () ∧
    Event.getAudioMedia 5 (-1) ∈ (MyCall.muteCall 5 (Call.create 0)).events := by
  refine ⟨by decide, by decide, ?_, rfl, ?_, rfl, ?_⟩
  · intro h; cases h
  · exact List.mem_cons_self _ _
  · exact List.mem_cons_self _ _

/-- C4 (amended): for a session whose state is neither Active nor OnHold, each of
holdCall, unholdCall, muteCall and unmuteCall still issues its library request,
the library rejects it with InvalidState, the operation reports that failure on the
error stream and returns normally, and the session (state and media sub-state) is
left exactly as it was. -/
theorem media_request_in_other_state (this : Nat) (s : CallSession)
    (remote : Except Error Unit) (h1 : s.state ≠ .active) (h2 : s.state ≠ .onHold) :
    MyCall.holdCall this s remote
      = ⟨s, [.reinvite this 0, .err "[ERROR] Failed to hold call: InvalidState"], .ok ()⟩ ∧
    MyCall.unholdCall this s remote
      = ⟨s, [.reinvite this 1, .err "[ERROR] Failed to unhold call: InvalidState"], .ok ()⟩ ∧
    MyCall.muteCall this s
      = ⟨s, [.getAudioMedia this (-1), .err "[ERROR] Failed to mute call: InvalidState"],
          .ok ()⟩ ∧
    MyCall.unmuteCall this s
      = ⟨s, [.getAudioMedia this (-1), .err "[ERROR] Failed to unmute call: InvalidState"],
          .ok ()⟩ := by
  refine ⟨?_, ?_, ?_, ?_⟩
  · rw [holdCall_of_error this s remote _ (reinvite_invalid_state s _ remote h1 h2)]; rfl
  · rw [unholdCall_of_error this s remote _ (reinvite_invalid_state s _ remote h1 h2)]; rfl
  · simp only [MyCall.muteCall, getAudioMedia_invalid_state s (-1) h1 h2]; rfl
  · simp only [MyCall.unmuteCall, getAudioMedia_invalid_state s (-1) h1 h2]; rfl

/-- Instance of the amended C4 at a session object on which no call was placed. -/
theorem media_request_in_other_state_witness :
    (Call.create 0).state ≠ .active ∧ (Call.create 0).state ≠ .onHold ∧
    MyCall.muteCall 5 (Call.create 0)
      = ⟨Call.create 0,
          [.getAudioMedia 5 (-1), .err "[ERROR] Failed to mute call: InvalidState"], .ok ()⟩ :=
  ⟨by decide, by decide,
    (media_request_in_other_state 5 (Call.create 0) (.ok ()) (by decide) (by decide)).2.2.1⟩

/-- C7: when the re-negotiation issued by holdCall (resp. unholdCall) fails, the
operation returns normally, its events are the request followed by the failure
message, and the session is unchanged; the success message is emitted exactly when
the re-negotiation succeeded. -/
theorem hold_failure_reported (this : Nat) (s : CallSession) (remote : Except Error Unit) :
    (∀ e, Call.reinvite s { CallOpParam.init with audioCount := 0 } remote = .error e →
      MyCall.holdCall this s remote
        = ⟨s, [.reinvite this 0, .err ("[ERROR] Failed to hold call: " ++ e.info)], .ok ()⟩) ∧
    (∀ e, Call.reinvite s { CallOpParam.init with audioCount := 1 } remote = .error e →
      MyCall.unholdCall this s remote
        = ⟨s, [.reinvite this 1, .err ("[ERROR] Failed to unhold call: " ++ e.info)],
            .ok ()⟩) ∧
    (Event.out "[INFO] Call put on hold." ∈ (MyCall.holdCall this s remote).events ↔
      ∃ s1, Call.reinvite s { CallOpParam.init with audioCount := 0 } remote = .ok s1) ∧
    (Event.out "[INFO] Call unheld." ∈ (MyCall.unholdCall this s remote).events ↔
      ∃ s1, Call.reinvite s { CallOpParam.init with audioCount := 1 } remote = .ok s1) ∧
    (MyCall.holdCall this s remote).result = .ok () ∧
    (MyCall.unholdCall this s remote).result = .ok () := by
  refine ⟨fun e h => holdCall_of_error this s remote e h,
    fun e h => unholdCall_of_error this s remote e h, ?_, ?_, ?_, ?_⟩
  · cases h : Call.reinvite s { CallOpParam.init with audioCount := 0 } remote with
    | ok s1 => rw [holdCall_of_ok this s s1 remote h]; simp
    | error e => rw [holdCall_of_error this s remote e h]; simp
  · cases h : Call.reinvite s { CallOpParam.init with audioCount := 1 } remote with
    | ok s1 => rw [unholdCall_of_ok this s s1 remote h]; simp
    | error e => rw [unholdCall_of_error this s remote e h]; simp
  · cases h : Call.reinvite s { CallOpParam.init with audioCount := 0 } remote with
    | ok s1 => rw [holdCall_of_ok this s s1 remote h]
    | error e => rw [holdCall_of_error this s remote e h]
  · cases h : Call.reinvite s { CallOpParam.init with audioCount := 1 } remote with
    | ok s1 => rw [unholdCall_of_ok this s s1 remote h]
    | error e => rw [unholdCall_of_error this s remote e h]

/-- Instance of C7: the remote party rejects the hold re-negotiation of the sample
Active session. -/
theorem hold_failure_reported_witness :
    Call.reinvite sampleActive { CallOpParam.init with audioCount := 0 }
        (.error ⟨.negotiationFailure⟩) = .error ⟨.negotiationFailure⟩ ∧
    MyCall.holdCall 3 sampleActive (.error ⟨.negotiationFailure⟩)
      = ⟨sampleActive,
          [.reinvite 3 0, .err ("[ERROR] Failed to hold call: " ++ "NegotiationFailure")],
          .ok ()⟩ :=
  ⟨rfl, (hold_failure_reported 3 sampleActive (.error ⟨.negotiationFailure⟩)).1
    ⟨.negotiationFailure⟩ rfl⟩

/-! ### The keep-alive loop -/

theorem refreshTimes_append (l1 l2 : List Event) (t : Nat) :
    refreshTimes t (l1 ++ l2) = refreshTimes t l1 ++ refreshTimes (t + sleepTotal l1) l2 := by
  induction l1 generalizing t with
  | nil => simp [refreshTimes, sleepTotal]
  | cons e es ih =>
    cases e <;> simp [refreshTimes, sleepTotal, ih, Nat.add_assoc]

theorem sleepTotal_append (l1 l2 : List Event) :
    sleepTotal (l1 ++ l2) = sleepTotal l1 + sleepTotal l2 := by
  induction l1 with
  | nil => simp [sleepTotal]
  | cons e es ih =>
    cases e <;> simp [sleepTotal, ih, Nat.add_assoc]

theorem refreshCount_append (l1 l2 : List Event) :
    refreshCount (l1 ++ l2) = refreshCount l1 + refreshCount l2 := by
  simp [refreshCount, List.filter_append]

theorem keepAliveInv_start (flag : Bool) (acc : Option Nat) :
    KeepAliveInv (startKeepAlive flag acc) := by
  cases acc <;> simp [KeepAliveInv, startKeepAlive, refreshTimes, refreshCount, sleepTotal]

theorem keepAliveInv_refresh (k k1 : KeepAlive) (a : Nat) (msg : Event)
    (hlog : k1.log = k.log ++ [.setRegistration a true, msg])
    (hpc : k1.pc = .loopHead) (hacc : k1.acc = some a)
    (hmsg : (∃ l, msg = .out l) ∨ (∃ l, msg = .err l))
    (h1 : refreshTimes 0 k.log
      = (List.range (refreshCount k.log)).map (fun i => keepAliveSleepSeconds * (i + 1)))
    (h3 : sleepTotal k.log
      = keepAliveSleepSeconds * refreshCount k.log + keepAliveSleepSeconds) :
    KeepAliveInv k1 := by
  have e1 : refreshTimes (0 + sleepTotal k.log) [Event.setRegistration a true, msg]
      = [sleepTotal k.log] := by
    rcases hmsg with ⟨l, rfl⟩ | ⟨l, rfl⟩ <;> simp [refreshTimes]
  have e2 : refreshCount [Event.setRegistration a true, msg] = 1 := by
    rcases hmsg with ⟨l, rfl⟩ | ⟨l, rfl⟩ <;> simp [refreshCount, Event.isRefresh]
  have e3 : sleepTotal [Event.setRegistration a true, msg] = 0 := by
    rcases hmsg with ⟨l, rfl⟩ | ⟨l, rfl⟩ <;> simp [sleepTotal]
  refine ⟨?_, ?_, ?_⟩
  · rw [hlog, refreshTimes_append, refreshCount_append, e1, e2, List.range_succ,
      List.map_append, ← h1, h3]
    simp [Nat.mul_add]
  · intro hn
    simp [hacc] at hn
  · rw [hlog, sleepTotal_append, refreshCount_append, e3, e2, h3, hpc]
    simp [Nat.mul_add]

theorem keepAliveInv_step (k : KeepAlive) (m : Move) (h : KeepAliveInv k) :
    KeepAliveInv (step k m) := by
  obtain ⟨h1, h2, h3⟩ := h
  cases m with
  | signal n =>
    refine ⟨?_, h2, ?_⟩
    · simp only [step, signalHandler, refreshTimes_append, refreshCount_append]
      simpa [refreshTimes, refreshCount, Event.isRefresh] using h1
    · simp only [step, signalHandler, sleepTotal_append, refreshCount_append]
      simpa [sleepTotal, refreshCount, Event.isRefresh] using h3
  | thread reg =>
    cases hpc : k.pc with
    | loopHead =>
      have hk : k.acc ≠ none := fun hn => by simp [h2 hn] at hpc
      simp only [hpc] at h3
      by_cases hr : k.isRunning = true
      · simp only [step, keepAliveStep, hpc, hr, if_true]
        exact ⟨h1, fun hn => absurd hn hk, by simpa using h3⟩
      · simp only [step, keepAliveStep, hpc, hr]
        exact ⟨h1, fun _ => rfl, by simpa using h3⟩
    | sleeping =>
      have hk : k.acc ≠ none := fun hn => by simp [h2 hn] at hpc
      simp only [hpc] at h3
      simp only [step, keepAliveStep, hpc]
      refine ⟨?_, fun hn => absurd hn hk, ?_⟩
      · simp only [refreshTimes_append, refreshCount_append]
        simpa [refreshTimes, refreshCount, Event.isRefresh] using h1
      · simp only [sleepTotal_append, refreshCount_append]
        simp [sleepTotal, refreshCount, Event.isRefresh] at h3 ⊢
        omega
    | refreshing =>
      simp only [hpc, if_true] at h3
      cases hacc : k.acc with
      | none => simp [h2 hacc] at hpc
      | some a =>
        cases reg with
        | ok u =>
          simp only [step, keepAliveStep, hpc, hacc]
          exact keepAliveInv_refresh k _ a _ rfl rfl rfl (Or.inl ⟨_, rfl⟩) h1 h3
        | error e =>
          simp only [step, keepAliveStep, hpc, hacc]
          exact keepAliveInv_refresh k _ a _ rfl rfl rfl (Or.inr ⟨_, rfl⟩) h1 h3
    | finished =>
      simp only [step, keepAliveStep, hpc]
      exact ⟨h1, h2, h3⟩

theorem keepAliveInv_run (ms : List Move) (k : KeepAlive) (h : KeepAliveInv k) :
    KeepAliveInv (run k ms) := by
  induction ms generalizing k with
  | nil => exact h
  | cons m ms ih => exact ih (step k m) (keepAliveInv_step k m h)

/-- C3 (as stated, refuted): the account is configured with a registration TTL of
120 s, for which the specification formula with a 20 s margin gives 100 s, yet two
successive refreshes of the keep-alive loop are 5 s apart. -/
theorem keepAlive_interval_is_not_ttl_minus_margin :
    (registerAccount "sip:5613@demo.dial-afrika.com" "sip:demo.dial-afrika.com" "5613"
        "Temp@123" World.empty).2.accounts.map AccountConfig.timeoutSec = [120] ∧
    specRefreshInterval 120 20 = 100 ∧
    refreshTimes 0 (run (startKeepAlive true (some 0))
        [.thread (.ok ()), .thread (.ok ()), .thread (.ok ()),
         .thread (.ok ()), .thread (.ok ()), .thread (.ok ())]).log = [5, 10] ∧
    10 - 5 ≠ specRefreshInterval 120 20 := by
  refine ⟨rfl, by decide, rfl, by decide⟩

/-- C3 (amended): whatever the registration TTL, the keep-alive loop sleeps a fixed
5 s before each refresh: in every execution the refreshes are issued at 5, 10, 15, ...
seconds of sleep, so two successive refreshes are exactly 5 s apart. -/
theorem keepAlive_refresh_every_five_seconds (flag : Bool) (acc : Option Nat)
    (ms : List Move) :
    keepAliveSleepSeconds = 5 ∧
    refreshTimes 0 (run (startKeepAlive flag acc) ms).log
      = (List.range (refreshCount (run (startKeepAlive flag acc) ms).log)).map
          (fun i => 5 * (i + 1)) ∧
    (∀ i t1 t2, (refreshTimes 0 (run (startKeepAlive flag acc) ms).log)[i]? = some t1 →
      (refreshTimes 0 (run (startKeepAlive flag acc) ms).log)[i + 1]? = some t2 →
      t2 = t1 + 5) := by
  have h := (keepAliveInv_run ms _ (keepAliveInv_start flag acc)).1
  simp only [keepAliveSleepSeconds] at h
  refine ⟨rfl, h, ?_⟩
  intro i t1 t2 h1 h2
  rw [h] at h1 h2
  simp only [List.getElem?_map, List.getElem?_range, Option.map_eq_some'] at h1 h2
  obtain ⟨a, ha, rfl⟩ := h1
  obtain ⟨b, hb, rfl⟩ := h2
  rw [List.getElem?_eq_some] at ha hb
  obtain ⟨_, ha⟩ := ha
  obtain ⟨_, hb⟩ := hb
  simp at ha hb
  omega

/-- Instance of the amended C3: two full passes of the loop. -/
theorem keepAlive_refresh_every_five_seconds_witness :
    (refreshTimes 0 (run (startKeepAlive true (some 0))
        [.thread (.ok ()), .thread (.ok ()), .thread (.ok ()),
         .thread (.ok ()), .thread (.ok ()), .thread (.ok ())]).log)[0]? = some 5 ∧
    (refreshTimes 0 (run (startKeepAlive true (some 0))
        [.thread (.ok ()), .thread (.ok ()), .thread (.ok ()),
         .thread (.ok ()), .thread (.ok ()), .thread (.ok ())]).log)[0 + 1]? = some 10 ∧
    10 = 5 + 5 :=
  ⟨rfl, rfl,
    (keepAlive_refresh_every_five_seconds true (some 0)
      [.thread (.ok ()), .thread (.ok ()), .thread (.ok ()),
       .thread (.ok ()), .thread (.ok ()), .thread (.ok ())]).2.2 0 5 10 rfl rfl⟩

theorem shutdown_step (k : KeepAlive) (m : Move) (h : k.isRunning = false) :
    (step k m).isRunning = false ∧
    refreshCount (step k m).log + pendingRefresh (step k m)
      ≤ refreshCount k.log + pendingRefresh k ∧
    refreshCount k.log ≤ refreshCount (step k m).log := by
  cases m with
  | signal n =>
    simp [step, signalHandler, refreshCount_append, refreshCount, Event.isRefresh,
      pendingRefresh]
  | thread reg =>
    cases hpc : k.pc <;> cases hacc : k.acc <;> cases reg <;>
      simp [step, keepAliveStep, hpc, hacc, h, refreshCount_append, refreshCount,
        Event.isRefresh, pendingRefresh]

theorem shutdown_run (ms : List Move) (k : KeepAlive) (h : k.isRunning = false) :
    (run k ms).isRunning = false ∧
    refreshCount (run k ms).log + pendingRefresh (run k ms)
      ≤ refreshCount k.log + pendingRefresh k ∧
    refreshCount k.log ≤ refreshCount (run k ms).log := by
  induction ms generalizing k with
  | nil => exact ⟨h, Nat.le_refl _, Nat.le_refl _⟩
  | cons m ms ih =>
    obtain ⟨s1, s2, s3⟩ := shutdown_step k m h
    obtain ⟨r1, r2, r3⟩ := ih (step k m) s1
    exact ⟨r1, Nat.le_trans r2 s2, Nat.le_trans s3 r3⟩

theorem pendingRefresh_le_one (k : KeepAlive) : pendingRefresh k ≤ 1 := by
  unfold pendingRefresh
  split <;> simp

/-- C5 (as stated, refuted): the signal is delivered after the loop has tested the
flag; the flag is then false, and the next statement of the thread still calls
setRegistration(true). -/
theorem refresh_after_shutdown_flag :
    (run (startKeepAlive true (some 0))
        [.thread (.ok ()), .thread (.ok ()), .signal 2]).isRunning = false ∧
    (run (startKeepAlive true (some 0))
        [.thread (.ok ()), .thread (.ok ()), .signal 2, .thread (.ok ())]).log
      = [.sleep 5, .out "[INFO] Signal received. Shutting down...",
         .setRegistration 0 true, .out "[INFO] Account re-registered to keep it alive."] := by
  exact ⟨rfl, rfl⟩

/-- C5 (amended): once the shutdown flag has been raised it stays raised, and the
keep-alive loop issues at most one further setRegistration(true) call; a loop that
is at its head, or has ended, when the flag is raised issues none. -/
theorem refresh_after_shutdown_bounded (k : KeepAlive) (ms : List Move)
    (h : k.isRunning = false) :
    (run k ms).isRunning = false ∧
    refreshCount (run k ms).log ≤ refreshCount k.log + 1 ∧
    (k.pc = .loopHead ∨ k.pc = .finished →
      refreshCount (run k ms).log = refreshCount k.log) := by
  obtain ⟨r1, r2, r3⟩ := shutdown_run ms k h
  refine ⟨r1, ?_, ?_⟩
  · have := pendingRefresh_le_one k
    omega
  · intro hpc
    have hp : pendingRefresh k = 0 := by
      unfold pendingRefresh
      rcases hpc with hpc | hpc <;> simp [hpc]
    omega

/-- Instance of the amended C5: the flag is raised while the thread sleeps. -/
theorem refresh_after_shutdown_bounded_witness :
    (run (startKeepAlive true (some 0)) [.thread (.ok ()), .signal 2]).isRunning = false ∧
    refreshCount (run (run (startKeepAlive true (some 0)) [.thread (.ok ()), .signal 2])
        [.thread (.ok ()), .thread (.ok ()), .thread (.ok ()), .thread (.ok ())]).log
      ≤ refreshCount (run (startKeepAlive true (some 0))
          [.thread (.ok ()), .signal 2]).log + 1 :=
  ⟨rfl,
    (refresh_after_shutdown_bounded
      (run (startKeepAlive true (some 0)) [.thread (.ok ()), .signal 2])
      [.thread (.ok ()), .thread (.ok ()), .thread (.ok ()), .thread (.ok ())] rfl).2.1⟩

/-- C6: when setRegistration raises an Error, the error is caught inside the loop:
the thread logs the failure message and not the success message and is back at the
loop head; and if the running flag is set, its next three statements test the flag,
sleep 5 s and call setRegistration again. -/
theorem failed_refresh_is_retried (k : KeepAlive) (a : Nat) (e : Error)
    (hpc : k.pc = .refreshing) (hacc : k.acc = some a) :
    (step k (.thread (.error e))).log
      = k.log ++ [.setRegistration a true,
                  .err ("[ERROR] Keep-alive registration failed: " ++ e.info)] ∧
    (step k (.thread (.error e))).pc = .loopHead ∧
    (k.isRunning = true → ∀ r1 r2 reg, ∃ msg,
      (run (step k (.thread (.error e))) [.thread r1, .thread r2, .thread reg]).log
        = (step k (.thread (.error e))).log
            ++ [.sleep 5, .setRegistration a true, msg]) := by
  refine ⟨?_, ?_, ?_⟩
  · simp [step, keepAliveStep, hpc, hacc]
  · simp [step, keepAliveStep, hpc, hacc]
  · intro hr r1 r2 reg
    cases reg with
    | ok u =>
      exact ⟨.out "[INFO] Account re-registered to keep it alive.",
        by simp [run, step, keepAliveStep, hpc, hacc, hr, keepAliveSleepSeconds]⟩
    | error e2 =>
      exact ⟨.err ("[ERROR] Keep-alive registration failed: " ++ e2.info),
        by simp [run, step, keepAliveStep, hpc, hacc, hr, keepAliveSleepSeconds]⟩

/-- Instance of C6: a transport failure in the first pass. -/
theorem failed_refresh_is_retried_witness :
    sampleRefreshing.pc = .refreshing ∧ sampleRefreshing.acc = some 0 ∧
    (step sampleRefreshing (.thread (.error ⟨.transportFailure⟩))).log
      = sampleRefreshing.log ++ [.setRegistration 0 true,
          .err ("[ERROR] Keep-alive registration failed: " ++ "TransportFailure")] :=
  ⟨rfl, rfl, (failed_refresh_is_retried sampleRefreshing 0 ⟨.transportFailure⟩ rfl rfl).1⟩

/-! ### Object lifetime -/

/-- C9: onIncomingCall creates one session object bound to the receiving account and
to the callId of the event, and answers on it exactly once, with status code
PJSIP_SC_OK = 200, which is an accept code; this holds whether or not the answer can
be sent. -/
theorem incoming_call_answered_ok (this : Nat) (prm : OnIncomingCallParam)
    (remote : Except Error Unit) (w : World) :
    PJSIP_SC_OK = 200 ∧ isAcceptCode PJSIP_SC_OK = true ∧
    (∃ tail, (MyAccount.onIncomingCall this prm remote w).1.log
        = w.log ++ [.newCall w.calls.length this (some prm.callId),
                    .answer w.calls.length 200] ++ tail ∧
      tail.filter Event.isAnswer = []) ∧
    ((MyAccount.onIncomingCall this prm remote w).1.calls[w.calls.length]?).map
        (fun o => (o.session.account, o.session.callId))
      = some (this, some prm.callId) := by
  refine ⟨rfl, rfl, ?_, ?_⟩
  · cases remote with
    | ok u =>
      exact ⟨[.out "[INFO] Incoming call answered."], by
        simp [MyAccount.onIncomingCall, Call.answer, Call.createInbound, World.alloc,
          isAcceptCode, PJSIP_SC_OK, CallOpParam.init], rfl⟩
    | error e =>
      exact ⟨[], by
        simp [MyAccount.onIncomingCall, Call.answer, Call.createInbound, World.alloc,
          World.emit, isAcceptCode, PJSIP_SC_OK, CallOpParam.init], rfl⟩
  · cases remote with
    | ok u =>
      simp [MyAccount.onIncomingCall, Call.answer, Call.createInbound, World.alloc,
        isAcceptCode, PJSIP_SC_OK, CallOpParam.init]
    | error e =>
      simp [MyAccount.onIncomingCall, Call.answer, Call.createInbound, World.alloc,
        World.emit, isAcceptCode, PJSIP_SC_OK, CallOpParam.init]

/-! ### Which object the operator commands reach -/

theorem onlyControls_nil (call : Nat) : OnlyControls call [] := ⟨rfl, rfl⟩

theorem onlyControls_append (call : Nat) (l1 l2 : List Event)
    (h1 : OnlyControls call l1) (h2 : OnlyControls call l2) :
    OnlyControls call (l1 ++ l2) := by
  obtain ⟨a1, b1⟩ := h1
  obtain ⟨a2, b2⟩ := h2
  refine ⟨by rw [List.filter_append, a1, a2]; rfl, ?_⟩
  rw [List.filterMap_append, List.all_append, b1, b2]
  rfl

theorem onlyControls_muteCall (this : Nat) (s : CallSession) :
    OnlyControls this (MyCall.muteCall this s).events := by
  cases h : Call.getAudioMedia s (-1) <;>
    simp [MyCall.muteCall, h, OnlyControls, Event.isMakeCall, Event.mediaTarget]

theorem onlyControls_unmuteCall (this : Nat) (s : CallSession) :
    OnlyControls this (MyCall.unmuteCall this s).events := by
  cases h : Call.getAudioMedia s (-1) <;>
    simp [MyCall.unmuteCall, h, OnlyControls, Event.isMakeCall, Event.mediaTarget]

theorem onlyControls_holdCall (this : Nat) (s : CallSession) (remote : Except Error Unit) :
    OnlyControls this (MyCall.holdCall this s remote).events := by
  cases h : Call.reinvite s { CallOpParam.init with audioCount := 0 } remote with
  | ok s1 =>
    rw [holdCall_of_ok this s s1 remote h]
    simp [OnlyControls, Event.isMakeCall, Event.mediaTarget]
  | error e =>
    rw [holdCall_of_error this s remote e h]
    simp [OnlyControls, Event.isMakeCall, Event.mediaTarget]

theorem onlyControls_unholdCall (this : Nat) (s : CallSession)
    (remote : Except Error Unit) :
    OnlyControls this (MyCall.unholdCall this s remote).events := by
  cases h : Call.reinvite s { CallOpParam.init with audioCount := 1 } remote with
  | ok s1 =>
    rw [unholdCall_of_ok this s s1 remote h]
    simp [OnlyControls, Event.isMakeCall, Event.mediaTarget]
  | error e =>
    rw [unholdCall_of_error this s remote e h]
    simp [OnlyControls, Event.isMakeCall, Event.mediaTarget]

theorem invoke_log (w : World) (p : Nat) (m : Nat → CallSession → Ret)
    (hm : ∀ s, OnlyControls p (m p s).events) :
    ∃ ext, (w.invoke p m).log = w.log ++ ext ∧ OnlyControls p ext := by
  unfold World.invoke
  cases h : w.calls[p]? with
  | none => exact ⟨[], by simp, onlyControls_nil p⟩
  | some o =>
    by_cases hd : o.destroyed = true
    · exact ⟨[], by simp [hd], onlyControls_nil p⟩
    · exact ⟨(m p o.session).events, by simp [hd], hm o.session⟩

theorem muteButtonHandler_log (call : Nat) (action : Char) (w : World) :
    ∃ ext, (muteButtonHandler call action w).log = w.log ++ ext ∧ OnlyControls call ext := by
  have hp : OnlyControls call [Event.out "Press 'm' to mute or 'u' to unmute the call: "] :=
    ⟨rfl, rfl⟩
  unfold muteButtonHandler
  by_cases h1 : action = 'm'
  · rw [if_pos h1]
    obtain ⟨ext, he, hq⟩ := invoke_log (w.emit [.out "Press 'm' to mute or 'u' to unmute the call: "])
      call MyCall.muteCall (onlyControls_muteCall call)
    exact ⟨_ ++ ext, by rw [he, World.emit, List.append_assoc],
      onlyControls_append call _ _ hp hq⟩
  · by_cases h2 : action = 'u'
    · rw [if_neg h1, if_pos h2]
      obtain ⟨ext, he, hq⟩ := invoke_log
        (w.emit [.out "Press 'm' to mute or 'u' to unmute the call: "])
        call MyCall.unmuteCall (onlyControls_unmuteCall call)
      exact ⟨_ ++ ext, by rw [he, World.emit, List.append_assoc],
        onlyControls_append call _ _ hp hq⟩
    · rw [if_neg h1, if_neg h2]
      exact ⟨_, rfl, hp⟩

theorem holdButtonHandler_log (call : Nat) (action : Char) (remote : Except Error Unit)
    (w : World) :
    ∃ ext, (holdButtonHandler call action remote w).log = w.log ++ ext ∧
      OnlyControls call ext := by
  have hp : OnlyControls call [Event.out "Press 'h' to hold or 'r' to unhold the call: "] :=
    ⟨rfl, rfl⟩
  unfold holdButtonHandler
  by_cases h1 : action = 'h'
  · rw [if_pos h1]
    obtain ⟨ext, he, hq⟩ := invoke_log
      (w.emit [.out "Press 'h' to hold or 'r' to unhold the call: "])
      call (fun this s => MyCall.holdCall this s remote)
      (fun s => onlyControls_holdCall call s remote)
    exact ⟨_ ++ ext, by rw [he, World.emit, List.append_assoc],
      onlyControls_append call _ _ hp hq⟩
  · by_cases h2 : action = 'r'
    · rw [if_neg h1, if_pos h2]
      obtain ⟨ext, he, hq⟩ := invoke_log
        (w.emit [.out "Press 'h' to hold or 'r' to unhold the call: "])
        call (fun this s => MyCall.unholdCall this s remote)
        (fun s => onlyControls_unholdCall call s remote)
      exact ⟨_ ++ ext, by rw [he, World.emit, List.append_assoc],
        onlyControls_append call _ _ hp hq⟩
    · rw [if_neg h1, if_neg h2]
      exact ⟨_, rfl, hp⟩

theorem mainLoop_log (call : Nat) (rounds : List Round) (w : World) :
    ∃ ext, (mainLoop call rounds w).log = w.log ++ ext ∧ OnlyControls call ext := by
  induction rounds generalizing w with
  | nil => exact ⟨[], by simp [mainLoop], onlyControls_nil call⟩
  | cons r rs ih =>
    obtain ⟨e1, h1, q1⟩ := muteButtonHandler_log call r.muteKey w
    obtain ⟨e2, h2, q2⟩ :=
      holdButtonHandler_log call r.holdKey r.remote (muteButtonHandler call r.muteKey w)
    obtain ⟨e3, h3, q3⟩ := ih
      (holdButtonHandler call r.holdKey r.remote (muteButtonHandler call r.muteKey w))
    refine ⟨e1 ++ (e2 ++ e3), ?_, ?_⟩
    · rw [mainLoop, h3, h2, h1, List.append_assoc, List.append_assoc]
    · exact onlyControls_append call _ _ q1 (onlyControls_append call _ _ q2 q3)

theorem makeCall_from_main_log (dial : Except Error Unit) (w : World)
    (hw : w.calls.length = 1) :
    ∃ ext, (makeCall (some 0) "sip:5614@demo.dial-afrika.com" dial w).log = w.log ++ ext ∧
      ext.filter Event.isMakeCall = [.makeCall 1 "sip:5614@demo.dial-afrika.com" 1] ∧
      ext.filterMap Event.mediaTarget = [] := by
  have hd : ("sip:5614@demo.dial-afrika.com" = "") = False := by decide
  cases dial with
  | ok u =>
    refine ⟨[.newCall 1 0 none, .makeCall 1 "sip:5614@demo.dial-afrika.com" 1,
      .out ("[INFO] Outgoing call to " ++ "sip:5614@demo.dial-afrika.com" ++ " initiated.")],
      ?_, rfl, rfl⟩
    simp [makeCall, Call.makeCall, World.alloc, hw, Call.create, CallOpParam.init]
  | error e =>
    refine ⟨[.newCall 1 0 none, .makeCall 1 "sip:5614@demo.dial-afrika.com" 1,
      .err ("[ERROR] Failed to make call: " ++ e.info), .delete 1], ?_, rfl, rfl⟩
    have hget : (w.calls ++ [(⟨false, Call.create 0⟩ : CallObj)])[1]?
        = some ⟨false, Call.create 0⟩ := by
      rw [← hw, List.getElem?_concat_length]
    simp [makeCall, Call.makeCall, World.alloc, World.emit, World.delete, hw, hget,
      CallOpParam.init, Call.create]

/-- C10 (the code at the failing input): in a run of main in which the operator
types m, h, u, r, the outbound call is placed on the object at address 1, allocated
inside makeCall, while every mute and hold request goes to the object at address 0,
allocated by main, on which no call was placed, and the library rejects each of
them.  In every run of main the only outbound call request is on object 1 and every
mute or hold request is on object 0. -/
theorem main_commands_reach_undialed_object (dial : Except Error Unit)
    (rounds : List Round) :
    (main (.ok ()) [⟨'m', 'h', .ok ()⟩, ⟨'u', 'r', .ok ()⟩]).log
      = [.lib "signal",
         .lib "libCreate", .lib "libInit", .lib "transportCreate", .lib "libStart",
         .out "[INFO] PJSIP initialized and started.",
         .lib "Account.create",
         .lib "startKeepAlive",
         .sleep 10,
         .newCall 0 0 none,
         .newCall 1 0 none,
         .makeCall 1 "sip:5614@demo.dial-afrika.com" 1,
         .out "[INFO] Outgoing call to sip:5614@demo.dial-afrika.com initiated.",
         .out "Press 'm' to mute or 'u' to unmute the call: ",
         .getAudioMedia 0 (-1),
         .err "[ERROR] Failed to mute call: InvalidState",
         .out "Press 'h' to hold or 'r' to unhold the call: ",
         .reinvite 0 0,
         .err "[ERROR] Failed to hold call: InvalidState",
         .out "Press 'm' to mute or 'u' to unmute the call: ",
         .getAudioMedia 0 (-1),
         .err "[ERROR] Failed to unmute call: InvalidState",
         .out "Press 'h' to hold or 'r' to unhold the call: ",
         .reinvite 0 1,
         .err "[ERROR] Failed to unhold call: InvalidState",
         .lib "libDestroy"] ∧
    (main dial rounds).log.filter Event.isMakeCall
      = [.makeCall 1 "sip:5614@demo.dial-afrika.com" 1] ∧
    ((main dial rounds).log.filterMap Event.mediaTarget).all (fun obj => decide (obj = 0))
      = true := by
  refine ⟨rfl, ?_⟩
  obtain ⟨e1, h1, m1, t1⟩ := makeCall_from_main_log dial
    ((((registerAccount "sip:5613@demo.dial-afrika.com" "sip:demo.dial-afrika.com" "5613"
      "Temp@123" (initPJSIP (World.empty.emit [.lib "signal"]))).2.emit
        [.lib "startKeepAlive", .sleep 10]).alloc (Call.create 0)).2) rfl
  obtain ⟨e2, h2, m2, t2⟩ := mainLoop_log 0 rounds
    (makeCall (some 0) "sip:5614@demo.dial-afrika.com" dial
      ((((registerAccount "sip:5613@demo.dial-afrika.com" "sip:demo.dial-afrika.com" "5613"
        "Temp@123" (initPJSIP (World.empty.emit [.lib "signal"]))).2.emit
          [.lib "startKeepAlive", .sleep 10]).alloc (Call.create 0)).2))
  have hdef : main dial rounds
      = (mainLoop 0 rounds
          (makeCall (some 0) "sip:5614@demo.dial-afrika.com" dial
            ((((registerAccount "sip:5613@demo.dial-afrika.com" "sip:demo.dial-afrika.com"
              "5613" "Temp@123" (initPJSIP (World.empty.emit [.lib "signal"]))).2.emit
                [.lib "startKeepAlive", .sleep 10]).alloc
                  (Call.create 0)).2))).emit [.lib "libDestroy"] := rfl
  have hmain : (main dial rounds).log
      = ([.lib "signal", .lib "libCreate", .lib "libInit", .lib "transportCreate",
          .lib "libStart", .out "[INFO] PJSIP initialized and started.",
          .lib "Account.create", .lib "startKeepAlive", .sleep 10,
          .newCall 0 0 none] ++ e1) ++ e2 ++ [.lib "libDestroy"] := by
    rw [hdef]
    show (mainLoop 0 rounds _).log ++ _ = _
    rw [h2, h1]
    rfl
  rw [hmain]
  constructor
  · simp only [List.filter_append, m1, m2]
    rfl
  · simp only [List.filterMap_append, t1, List.all_append, t2]
    rfl

end SessionManagement
